import Mathlib

/-!
Verification of the miden-swift-client FFI bridge (src/lib.rs, src/memory.rs).

The Rust code exposes a stateful `miden_client` instance to foreign callers
through a dedicated worker thread that owns the client exclusively and drains a
bounded `tokio::sync::mpsc` queue of `Request`s.  We embed the bridge
shallowly:

* foreign `*const c_char` arguments become `CStrArg` (null / invalid UTF-8 /
  a valid string);
* the bounded queue becomes a `Channel` (list of pending requests plus a
  closed flag), with `try_send` mirroring tokio's `try_send` semantics;
* one-shot response channels and `recv_timeout` become a `RecvOutcome`
  environment parameter indexed by the timeout the entry point passes;
* the external miden client library (out of scope for the repository, used as
  a black box) becomes a `ClientModel` oracle: each `*_impl` helper of
  `lib.rs`, whose behaviour is determined entirely by external client calls,
  is collapsed into one oracle field returning the final `Result` the impl
  produces;
* callbacks and response sends become `Completion` events emitted by the
  worker loop, so ordering properties are statements about the event trace.

Machine integers: the block number is a `u32` and lengths are `usize`; all
values involved are far below the overflow bounds, so they are modelled as
`Nat`.  Error codes are `Int`.
-/

namespace MidenFFI

/-- `SYNC_TIMEOUT` from lib.rs: `Duration::from_secs(30)`, modelled in
seconds. -/
def SYNC_TIMEOUT : Nat := 30

/-- `WORKER_QUEUE_CAPACITY` from lib.rs. -/
def WORKER_QUEUE_CAPACITY : Nat := 256

/-- Error: invalid parameter. -/
def ERR_INVALID_PARAM : Int := -1

/-- Error: invalid handle or worker closed. -/
def ERR_INVALID_HANDLE : Int := -2

/-- Error: account/key operation failed. -/
def ERR_ACCOUNT_OP : Int := -3

/-- Error: note operation failed. -/
def ERR_NOTE_OP : Int := -4

/-- Error: balance/account lookup failed. -/
def ERR_LOOKUP : Int := -5

/-- Error: transaction submission failed. -/
def ERR_TX_SUBMIT : Int := -6

/-- Error: worker queue is full. -/
def ERR_QUEUE_FULL : Int := -8

/-- Error: operation timed out. -/
def ERR_TIMEOUT : Int := -99

/-- Model of a `*const c_char` argument: the pointer may be null, point at a
byte sequence that is not valid UTF-8 (so `CStr::to_str` fails), or point at
a valid UTF-8 string. -/
inductive CStrArg
  | null
  | invalidUtf8
  | valid (s : String)
  deriving DecidableEq, Repr

/-- A parsed `AccountId` (an external miden-objects type) is represented by
the hex string it was parsed from; which strings parse successfully is an
oracle parameter (`accountIdValid`). -/
abbrev AccountId : Type := String

/-- A parsed `NoteId` (external type), represented abstractly by the hex
string accepted by `NoteId::try_from_hex` (an oracle parameter). -/
abbrev NoteId : Type := String

/-- The `Request` enum sent to the worker thread (lib.rs).  Response channels
(`response_tx`) are modelled by the worker's emitted events rather than stored
in the request; callback function pointers are likewise dropped, keeping the
`user_data` context value that identifies the callback invocation. -/
inductive Request
  | SyncSync
  | CreateWalletSync (seed : List Nat)
  | GetAccountsSync
  | GetBalanceSync (account_id : AccountId) (account_id_str : String)
  | GetInputNotesSync (account_id : Option AccountId)
  | ConsumeNotesSync (account_id : AccountId) (note_ids : List NoteId)
  | TestConnectionSync
  | SyncAsync (user_data : Nat)
  | CreateWalletAsync (seed : List Nat) (user_data : Nat)
  | GetAccountsAsync (user_data : Nat)
  | GetBalanceAsync (account_id : AccountId) (account_id_str : String) (user_data : Nat)
  | GetInputNotesAsync (account_id : Option AccountId) (user_data : Nat)
  | ConsumeNotesAsync (account_id : AccountId) (note_ids : List NoteId) (user_data : Nat)
  | TestConnectionAsync (user_data : Nat)
  | Shutdown
  deriving DecidableEq, Repr

/-- The bounded mpsc channel: pending requests in FIFO order plus whether the
receiving end has been dropped. -/
structure Channel where
  queue : List Request
  closed : Bool
  deriving DecidableEq, Repr

/-- Possible `tokio::sync::mpsc::error::TrySendError` outcomes. -/
inductive TrySendErr
  | full
  | closedErr
  deriving DecidableEq, Repr

/-- tokio `Sender::try_send`: fails with `Closed` when the receiver has been
dropped, with `Full` when the bounded queue is at capacity, and otherwise
appends the message to the queue. -/
def Channel.try_send (ch : Channel) (req : Request) : Except TrySendErr Channel :=
  if ch.closed then .error .closedErr
  else if WORKER_QUEUE_CAPACITY ≤ ch.queue.length then .error .full
  else .ok { ch with queue := ch.queue ++ [req] }

/-- `MidenWorkerHandle` from lib.rs: the sender to the worker thread
(`Option` so that destroy can take it) and the join handle (modelled by a
flag recording whether the thread handle is still present). -/
structure MidenWorkerHandle where
  sender : Option Channel
  worker_thread : Bool
  deriving DecidableEq, Repr

/-- `MidenHandle = *mut MidenWorkerHandle`: either null or a pointer to a
worker handle (the pointee is carried directly). -/
def MidenHandle : Type := Option MidenWorkerHandle

/-- `get_handle` from lib.rs: null pointer yields `None`, otherwise the
dereferenced handle. -/
def get_handle (handle : MidenHandle) : Option MidenWorkerHandle :=
  match handle with
  | none => none
  | some h => some h

/-- `try_send_request` from lib.rs.  On success it returns the channel with
the request appended (the Rust function returns `Ok(())`; we return the
updated channel state so that theorems can talk about the admitted
request). -/
def try_send_request (sender : Option Channel) (request : Request) :
    Except Int Channel :=
  match sender with
  | none => .error ERR_INVALID_HANDLE
  | some ch =>
    match ch.try_send request with
    | .ok ch2 => .ok ch2
    | .error .full => .error ERR_QUEUE_FULL
    | .error .closedErr => .error ERR_INVALID_HANDLE

/-- `parse_account_id` from lib.rs: null pointer and invalid UTF-8 give
`ERR_INVALID_PARAM`; a string rejected by `AccountId::from_hex` (the external
validity oracle `accountIdValid`) gives `ERR_ACCOUNT_OP`; otherwise the parsed
id together with the original string. -/
def parse_account_id (accountIdValid : String → Bool) (account_id_hex : CStrArg) :
    Except Int (AccountId × String) :=
  match account_id_hex with
  | .null => .error ERR_INVALID_PARAM
  | .invalidUtf8 => .error ERR_INVALID_PARAM
  | .valid s => if accountIdValid s then .ok (s, s) else .error ERR_ACCOUNT_OP

/-- `parse_optional_account_id` from lib.rs: null and empty strings mean "no
account filter"; invalid UTF-8 gives `ERR_INVALID_PARAM`; a non-empty string
rejected by `AccountId::from_hex` gives `ERR_ACCOUNT_OP`. -/
def parse_optional_account_id (accountIdValid : String → Bool)
    (account_id_hex : CStrArg) : Except Int (Option AccountId) :=
  match account_id_hex with
  | .null => .ok none
  | .invalidUtf8 => .error ERR_INVALID_PARAM
  | .valid s =>
    if s = "" then .ok none
    else if accountIdValid s then .ok (some s) else .error ERR_ACCOUNT_OP

/-- `parse_note_ids_json` from lib.rs: `serde_json::from_str::<Vec<String>>`
(oracle `serdeParseStringArray`, `none` on malformed JSON or non-string-array
shapes) followed by `NoteId::try_from_hex` on every element (oracle
`noteIdFromHex`); any failure maps to `ERR_NOTE_OP`. -/
def parse_note_ids_json (serdeParseStringArray : String → Option (List String))
    (noteIdFromHex : String → Option NoteId) (json : String) :
    Except Int (List NoteId) :=
  match serdeParseStringArray json with
  | none => .error ERR_NOTE_OP
  | some ids =>
    match ids.mapM noteIdFromHex with
    | none => .error ERR_NOTE_OP
    | some note_ids => .ok note_ids

/-- Model of the external miden client library (plus the `*_impl` helpers of
lib.rs whose results are entirely determined by external client calls).
`C` is the abstract state of the `MidenContext` (client + keystore).
`sync_state` returns the new state and `some block_num` on success or `none`
on failure (the worker maps failure to `ERR_INVALID_HANDLE` inline).  The
remaining fields model `create_wallet_impl`, `get_accounts_impl`,
`get_balance_impl`, `get_input_notes_impl` and `consume_notes_impl`, which
produce a string on success or one of the fixed error codes. -/
structure ClientModel (C : Type) where
  sync_state : C → C × Option Nat
  create_wallet_impl : C → List Nat → C × Except Int String
  get_accounts_impl : C → C × Except Int String
  get_balance_impl : C → AccountId → String → C × Except Int String
  get_input_notes_impl : C → Option AccountId → C × Except Int String
  consume_notes_impl : C → AccountId → List NoteId → C × Except Int String

/-- The observable completion of one request: for blocking requests, the
result sent on the request's one-shot response channel; for non-blocking
requests, the callback invocation (context value, status code, payload). -/
inductive Completion
  | sentBlockNum (r : Except Int Nat)
  | sentString (r : Except Int String)
  | sentUnit (r : Except Int Unit)
  | cbBlockNum (user_data : Nat) (code : Int) (block_num : Nat)
  | cbBuffer (user_data : Nat) (code : Int) (payload : Option String)
  | cbStatus (user_data : Nat) (code : Int)

/-- One entry of the worker's event trace: the request that was executed and
its completion. -/
structure Event where
  req : Request
  completion : Completion

/-- The body of the worker loop's `match` for every non-`Shutdown` arm
(lib.rs `worker_event_loop`): execute the request against the client, return
the new client state and the completion.  Returns `none` exactly for
`Shutdown` (the loop breaks). -/
def exec_request {C : Type} (cm : ClientModel C) (ctx : C) :
    Request → Option (C × Completion)
  | .Shutdown => none
  | .SyncSync =>
    let p := cm.sync_state ctx
    some (p.1, .sentBlockNum (match p.2 with
      | some block_num => .ok block_num
      | none => .error ERR_INVALID_HANDLE))
  | .CreateWalletSync seed =>
    let p := cm.create_wallet_impl ctx seed
    some (p.1, .sentString p.2)
  | .GetAccountsSync =>
    let p := cm.get_accounts_impl ctx
    some (p.1, .sentString p.2)
  | .GetBalanceSync account_id account_id_str =>
    let p := cm.get_balance_impl ctx account_id account_id_str
    some (p.1, .sentString p.2)
  | .GetInputNotesSync account_id =>
    let p := cm.get_input_notes_impl ctx account_id
    some (p.1, .sentString p.2)
  | .ConsumeNotesSync account_id note_ids =>
    let p := cm.consume_notes_impl ctx account_id note_ids
    some (p.1, .sentString p.2)
  | .TestConnectionSync =>
    let p := cm.sync_state ctx
    some (p.1, .sentUnit (match p.2 with
      | some _ => .ok ()
      | none => .error ERR_INVALID_HANDLE))
  | .SyncAsync user_data =>
    let p := cm.sync_state ctx
    some (p.1, match p.2 with
      | some block_num => .cbBlockNum user_data 0 block_num
      | none => .cbBlockNum user_data ERR_INVALID_HANDLE 0)
  | .CreateWalletAsync seed user_data =>
    let p := cm.create_wallet_impl ctx seed
    some (p.1, match p.2 with
      | .ok hex => .cbBuffer user_data 0 (some hex)
      | .error code => .cbBuffer user_data code none)
  | .GetAccountsAsync user_data =>
    let p := cm.get_accounts_impl ctx
    some (p.1, match p.2 with
      | .ok json => .cbBuffer user_data 0 (some json)
      | .error code => .cbBuffer user_data code none)
  | .GetBalanceAsync account_id account_id_str user_data =>
    let p := cm.get_balance_impl ctx account_id account_id_str
    some (p.1, match p.2 with
      | .ok json => .cbBuffer user_data 0 (some json)
      | .error code => .cbBuffer user_data code none)
  | .GetInputNotesAsync account_id user_data =>
    let p := cm.get_input_notes_impl ctx account_id
    some (p.1, match p.2 with
      | .ok json => .cbBuffer user_data 0 (some json)
      | .error code => .cbBuffer user_data code none)
  | .ConsumeNotesAsync account_id note_ids user_data =>
    let p := cm.consume_notes_impl ctx account_id note_ids
    some (p.1, match p.2 with
      | .ok hex => .cbBuffer user_data 0 (some hex)
      | .error code => .cbBuffer user_data code none)
  | .TestConnectionAsync user_data =>
    let p := cm.sync_state ctx
    some (p.1, match p.2 with
      | some _ => .cbStatus user_data 0
      | none => .cbStatus user_data ERR_INVALID_HANDLE)

/-- `worker_event_loop` from lib.rs over the sequence of requests the channel
delivers (`msgs`; the end of the list models the channel reporting closure,
i.e. `rx.recv()` returning `None`).  Returns the final client state and the
trace of completions, in execution order.  The loop breaks on `Shutdown`
(`exec_request` returns `none`) and otherwise executes each request to
completion before receiving the next. -/
def worker_event_loop {C : Type} (cm : ClientModel C) :
    C → List Request → C × List Event
  | ctx, [] => (ctx, [])
  | ctx, req :: rest =>
    match exec_request cm ctx req with
    | none => (ctx, [])
    | some (ctx2, comp) =>
      let q := worker_event_loop cm ctx2 rest
      (q.1, ⟨req, comp⟩ :: q.2)

/-- Whether a request is the `Shutdown` control message. -/
def Request.isShutdown : Request → Bool
  | .Shutdown => true
  | _ => false

/-- The requests the worker processes: the prefix of the delivered sequence
strictly before the first `Shutdown`. -/
def preShutdown (msgs : List Request) : List Request :=
  msgs.takeWhile (fun r => !r.isShutdown)

/-- The client state after sequentially executing a list of (non-`Shutdown`)
requests from state `ctx`. -/
def ctxAfter {C : Type} (cm : ClientModel C) (ctx : C) (reqs : List Request) : C :=
  reqs.foldl (fun c r =>
    match exec_request cm c r with
    | none => c
    | some p => p.1) ctx

/-- Outcome of `std::sync::mpsc::Receiver::recv_timeout` on a blocking
operation's one-shot response channel: a response (itself a `Result`), a
timeout, or disconnection.  Entry points consult an environment
`Nat → RecvOutcome α` at the timeout value they pass (always
`SYNC_TIMEOUT`). -/
inductive RecvOutcome (α : Type)
  | received (r : Except Int α)
  | timedOut
  | disconnected

/-- What a foreign entry-point call did, as observable at the boundary:
the returned status code, the state of the worker channel after the call
(`none` when the handle was invalid or the sender already taken), the
requests this call enqueued, and the data written through the caller's
out-pointers (`W` is the write type: for string outputs, the bytes written
together with the value stored back into the in/out length parameter). -/
structure FfiOutcome (W : Type) where
  code : Int
  queueAfter : Option Channel
  enqueued : List Request
  written : Option W

/-- `wc_miden_sync` from lib.rs (blocking).  `block_num_out_null` models
nullness of the out-pointer; the write is the `u32` stored to it. -/
def wc_miden_sync (handle : MidenHandle) (block_num_out_null : Bool)
    (recvEnv : Nat → RecvOutcome Nat) : FfiOutcome Nat :=
  match get_handle handle with
  | none => ⟨ERR_INVALID_HANDLE, none, [], none⟩
  | some worker =>
    match try_send_request worker.sender Request.SyncSync with
    | .error code => ⟨code, worker.sender, [], none⟩
    | .ok ch =>
      match recvEnv SYNC_TIMEOUT with
      | .received (.ok block_num) =>
        if block_num_out_null then ⟨0, some ch, [Request.SyncSync], none⟩
        else ⟨0, some ch, [Request.SyncSync], some block_num⟩
      | .received (.error code) => ⟨code, some ch, [Request.SyncSync], none⟩
      | .timedOut => ⟨ERR_TIMEOUT, some ch, [Request.SyncSync], none⟩
      | .disconnected => ⟨ERR_INVALID_HANDLE, some ch, [Request.SyncSync], none⟩

/-- The shared success-path epilogue of the blocking string-returning entry
points: read the capacity from the in/out length parameter, fail with
`ERR_INVALID_PARAM` if the result does not fit, otherwise write the full
result and store the actual length.  Result strings are ASCII (hex / JSON),
so `String.length` coincides with the Rust byte length. -/
def writeStringResult (res : String) (out_capacity : Nat)
    (ch : Channel) (req : Request) : FfiOutcome (String × Nat) :=
  if out_capacity < res.length then
    ⟨ERR_INVALID_PARAM, some ch, [req], none⟩
  else
    ⟨0, some ch, [req], some (res, res.length)⟩

/-- The shared tail of every blocking string-returning entry point after a
successful enqueue: wait on the response channel with `SYNC_TIMEOUT`
(lib.rs `rx.recv_timeout(SYNC_TIMEOUT)`) and map the outcome. -/
def awaitStringResult (recvEnv : Nat → RecvOutcome String)
    (out_capacity : Nat) (ch : Channel) (req : Request) :
    FfiOutcome (String × Nat) :=
  match recvEnv SYNC_TIMEOUT with
  | .received (.ok res) => writeStringResult res out_capacity ch req
  | .received (.error code) => ⟨code, some ch, [req], none⟩
  | .timedOut => ⟨ERR_TIMEOUT, some ch, [req], none⟩
  | .disconnected => ⟨ERR_INVALID_HANDLE, some ch, [req], none⟩

/-- `wc_miden_create_wallet` from lib.rs (blocking).  `seed_ptr` models the
32 bytes readable through the seed pointer (`none` = null pointer);
`rng_seed` models the 32 bytes produced by `StdRng::from_os_rng` when the
pointer is null.  `account_id_out_len` is `none` when the length pointer is
null, otherwise the capacity read from it. -/
def wc_miden_create_wallet (handle : MidenHandle)
    (seed_ptr : Option (List Nat)) (seed_len : Nat)
    (account_id_out_null : Bool) (account_id_out_len : Option Nat)
    (rng_seed : List Nat)
    (recvEnv : Nat → RecvOutcome String) : FfiOutcome (String × Nat) :=
  match get_handle handle with
  | none => ⟨ERR_INVALID_HANDLE, none, [], none⟩
  | some worker =>
    if account_id_out_null || account_id_out_len.isNone then
      ⟨ERR_INVALID_PARAM, worker.sender, [], none⟩
    else
      match seed_ptr with
      | some bytes =>
        if seed_len ≠ 32 then ⟨ERR_INVALID_PARAM, worker.sender, [], none⟩
        else
          match try_send_request worker.sender (Request.CreateWalletSync bytes) with
          | .error code => ⟨code, worker.sender, [], none⟩
          | .ok ch =>
            awaitStringResult recvEnv (account_id_out_len.getD 0) ch
              (Request.CreateWalletSync bytes)
      | none =>
        match try_send_request worker.sender (Request.CreateWalletSync rng_seed) with
        | .error code => ⟨code, worker.sender, [], none⟩
        | .ok ch =>
          awaitStringResult recvEnv (account_id_out_len.getD 0) ch
            (Request.CreateWalletSync rng_seed)

/-- `wc_miden_get_accounts` from lib.rs (blocking). -/
def wc_miden_get_accounts (handle : MidenHandle)
    (accounts_json_out_null : Bool) (accounts_json_out_len : Option Nat)
    (recvEnv : Nat → RecvOutcome String) : FfiOutcome (String × Nat) :=
  match get_handle handle with
  | none => ⟨ERR_INVALID_HANDLE, none, [], none⟩
  | some worker =>
    if accounts_json_out_null || accounts_json_out_len.isNone then
      ⟨ERR_INVALID_PARAM, worker.sender, [], none⟩
    else
      match try_send_request worker.sender Request.GetAccountsSync with
      | .error code => ⟨code, worker.sender, [], none⟩
      | .ok ch =>
        awaitStringResult recvEnv (accounts_json_out_len.getD 0) ch
          Request.GetAccountsSync

/-- `wc_miden_get_balance` from lib.rs (blocking). -/
def wc_miden_get_balance (accountIdValid : String → Bool) (handle : MidenHandle)
    (account_id_hex : CStrArg)
    (balance_json_out_null : Bool) (balance_json_out_len : Option Nat)
    (recvEnv : Nat → RecvOutcome String) : FfiOutcome (String × Nat) :=
  match get_handle handle with
  | none => ⟨ERR_INVALID_HANDLE, none, [], none⟩
  | some worker =>
    if balance_json_out_null || balance_json_out_len.isNone then
      ⟨ERR_INVALID_PARAM, worker.sender, [], none⟩
    else
      match parse_account_id accountIdValid account_id_hex with
      | .error code => ⟨code, worker.sender, [], none⟩
      | .ok (account_id, account_id_str) =>
        match try_send_request worker.sender
            (Request.GetBalanceSync account_id account_id_str) with
        | .error code => ⟨code, worker.sender, [], none⟩
        | .ok ch =>
          awaitStringResult recvEnv (balance_json_out_len.getD 0) ch
            (Request.GetBalanceSync account_id account_id_str)

/-- `wc_miden_test_connection` from lib.rs (blocking). -/
def wc_miden_test_connection (handle : MidenHandle)
    (recvEnv : Nat → RecvOutcome Unit) : FfiOutcome Unit :=
  match get_handle handle with
  | none => ⟨ERR_INVALID_HANDLE, none, [], none⟩
  | some worker =>
    match try_send_request worker.sender Request.TestConnectionSync with
    | .error code => ⟨code, worker.sender, [], none⟩
    | .ok ch =>
      match recvEnv SYNC_TIMEOUT with
      | .received (.ok _) => ⟨0, some ch, [Request.TestConnectionSync], none⟩
      | .received (.error code) => ⟨code, some ch, [Request.TestConnectionSync], none⟩
      | .timedOut => ⟨ERR_TIMEOUT, some ch, [Request.TestConnectionSync], none⟩
      | .disconnected => ⟨ERR_INVALID_HANDLE, some ch, [Request.TestConnectionSync], none⟩

/-- `wc_miden_get_input_notes` from lib.rs (blocking). -/
def wc_miden_get_input_notes (accountIdValid : String → Bool)
    (handle : MidenHandle) (account_id_hex : CStrArg)
    (notes_json_out_null : Bool) (notes_json_out_len : Option Nat)
    (recvEnv : Nat → RecvOutcome String) : FfiOutcome (String × Nat) :=
  match get_handle handle with
  | none => ⟨ERR_INVALID_HANDLE, none, [], none⟩
  | some worker =>
    if notes_json_out_null || notes_json_out_len.isNone then
      ⟨ERR_INVALID_PARAM, worker.sender, [], none⟩
    else
      match parse_optional_account_id accountIdValid account_id_hex with
      | .error code => ⟨code, worker.sender, [], none⟩
      | .ok account_id =>
        match try_send_request worker.sender
            (Request.GetInputNotesSync account_id) with
        | .error code => ⟨code, worker.sender, [], none⟩
        | .ok ch =>
          awaitStringResult recvEnv (notes_json_out_len.getD 0) ch
            (Request.GetInputNotesSync account_id)

/-- `wc_miden_consume_notes` from lib.rs (blocking).  The validated note ids
(`Ok(ids) if !ids.is_empty()`) are enqueued; every other parse outcome
returns `ERR_NOTE_OP` before any request is sent. -/
def wc_miden_consume_notes (accountIdValid : String → Bool)
    (serdeParseStringArray : String → Option (List String))
    (noteIdFromHex : String → Option NoteId)
    (handle : MidenHandle) (account_id_hex : CStrArg)
    (note_ids_json : CStrArg)
    (tx_id_out_null : Bool) (tx_id_out_len : Option Nat)
    (recvEnv : Nat → RecvOutcome String) : FfiOutcome (String × Nat) :=
  match get_handle handle with
  | none => ⟨ERR_INVALID_HANDLE, none, [], none⟩
  | some worker =>
    if note_ids_json = CStrArg.null || tx_id_out_null || tx_id_out_len.isNone then
      ⟨ERR_INVALID_PARAM, worker.sender, [], none⟩
    else
      match parse_account_id accountIdValid account_id_hex with
      | .error code => ⟨code, worker.sender, [], none⟩
      | .ok (account_id, _) =>
        match note_ids_json with
        | .null => ⟨ERR_INVALID_PARAM, worker.sender, [], none⟩
        | .invalidUtf8 => ⟨ERR_INVALID_PARAM, worker.sender, [], none⟩
        | .valid note_ids_str =>
          let parsed : Option (List NoteId) :=
            match parse_note_ids_json serdeParseStringArray noteIdFromHex
                note_ids_str with
            | .ok ids => if ids.isEmpty then none else some ids
            | .error _ => none
          match parsed with
          | none => ⟨ERR_NOTE_OP, worker.sender, [], none⟩
          | some note_ids =>
            match try_send_request worker.sender
                (Request.ConsumeNotesSync account_id note_ids) with
            | .error code => ⟨code, worker.sender, [], none⟩
            | .ok ch =>
              awaitStringResult recvEnv (tx_id_out_len.getD 0) ch
                (Request.ConsumeNotesSync account_id note_ids)

/-- `wc_miden_sync_async` from lib.rs: validate the handle, enqueue the
request carrying the callback context, return 0 immediately. -/
def wc_miden_sync_async (handle : MidenHandle) (user_data : Nat) :
    FfiOutcome Unit :=
  match get_handle handle with
  | none => ⟨ERR_INVALID_HANDLE, none, [], none⟩
  | some worker =>
    match try_send_request worker.sender (Request.SyncAsync user_data) with
    | .error code => ⟨code, worker.sender, [], none⟩
    | .ok ch => ⟨0, some ch, [Request.SyncAsync user_data], none⟩

/-- `wc_miden_create_wallet_async` from lib.rs: same seed handling as the
blocking variant (null seed pointer → fresh random 32-byte seed, non-null
seed with `seed_len ≠ 32` → `ERR_INVALID_PARAM`), then enqueue and return
0. -/
def wc_miden_create_wallet_async (handle : MidenHandle)
    (seed_ptr : Option (List Nat)) (seed_len : Nat)
    (user_data : Nat) (rng_seed : List Nat) : FfiOutcome Unit :=
  match get_handle handle with
  | none => ⟨ERR_INVALID_HANDLE, none, [], none⟩
  | some worker =>
    match seed_ptr with
    | some bytes =>
      if seed_len ≠ 32 then ⟨ERR_INVALID_PARAM, worker.sender, [], none⟩
      else
        match try_send_request worker.sender
            (Request.CreateWalletAsync bytes user_data) with
        | .error code => ⟨code, worker.sender, [], none⟩
        | .ok ch => ⟨0, some ch, [Request.CreateWalletAsync bytes user_data], none⟩
    | none =>
      match try_send_request worker.sender
          (Request.CreateWalletAsync rng_seed user_data) with
      | .error code => ⟨code, worker.sender, [], none⟩
      | .ok ch => ⟨0, some ch, [Request.CreateWalletAsync rng_seed user_data], none⟩

/-- `wc_miden_get_accounts_async` from lib.rs. -/
def wc_miden_get_accounts_async (handle : MidenHandle) (user_data : Nat) :
    FfiOutcome Unit :=
  match get_handle handle with
  | none => ⟨ERR_INVALID_HANDLE, none, [], none⟩
  | some worker =>
    match try_send_request worker.sender (Request.GetAccountsAsync user_data) with
    | .error code => ⟨code, worker.sender, [], none⟩
    | .ok ch => ⟨0, some ch, [Request.GetAccountsAsync user_data], none⟩

/-- `wc_miden_get_balance_async` from lib.rs. -/
def wc_miden_get_balance_async (accountIdValid : String → Bool)
    (handle : MidenHandle) (account_id_hex : CStrArg) (user_data : Nat) :
    FfiOutcome Unit :=
  match get_handle handle with
  | none => ⟨ERR_INVALID_HANDLE, none, [], none⟩
  | some worker =>
    match parse_account_id accountIdValid account_id_hex with
    | .error code => ⟨code, worker.sender, [], none⟩
    | .ok (account_id, account_id_str) =>
      match try_send_request worker.sender
          (Request.GetBalanceAsync account_id account_id_str user_data) with
      | .error code => ⟨code, worker.sender, [], none⟩
      | .ok ch =>
        ⟨0, some ch, [Request.GetBalanceAsync account_id account_id_str user_data], none⟩

/-- `wc_miden_test_connection_async` from lib.rs. -/
def wc_miden_test_connection_async (handle : MidenHandle) (user_data : Nat) :
    FfiOutcome Unit :=
  match get_handle handle with
  | none => ⟨ERR_INVALID_HANDLE, none, [], none⟩
  | some worker =>
    match try_send_request worker.sender
        (Request.TestConnectionAsync user_data) with
    | .error code => ⟨code, worker.sender, [], none⟩
    | .ok ch => ⟨0, some ch, [Request.TestConnectionAsync user_data], none⟩

/-- `wc_miden_get_input_notes_async` from lib.rs. -/
def wc_miden_get_input_notes_async (accountIdValid : String → Bool)
    (handle : MidenHandle) (account_id_hex : CStrArg) (user_data : Nat) :
    FfiOutcome Unit :=
  match get_handle handle with
  | none => ⟨ERR_INVALID_HANDLE, none, [], none⟩
  | some worker =>
    match parse_optional_account_id accountIdValid account_id_hex with
    | .error code => ⟨code, worker.sender, [], none⟩
    | .ok account_id =>
      match try_send_request worker.sender
          (Request.GetInputNotesAsync account_id user_data) with
      | .error code => ⟨code, worker.sender, [], none⟩
      | .ok ch => ⟨0, some ch, [Request.GetInputNotesAsync account_id user_data], none⟩

/-- `wc_miden_consume_notes_async` from lib.rs: null `note_ids_json` check,
then `parse_account_id`, then UTF-8 check of the note-id JSON, then
`parse_note_ids_json` with the non-empty guard, then enqueue. -/
def wc_miden_consume_notes_async (accountIdValid : String → Bool)
    (serdeParseStringArray : String → Option (List String))
    (noteIdFromHex : String → Option NoteId)
    (handle : MidenHandle) (account_id_hex : CStrArg)
    (note_ids_json : CStrArg) (user_data : Nat) : FfiOutcome Unit :=
  match get_handle handle with
  | none => ⟨ERR_INVALID_HANDLE, none, [], none⟩
  | some worker =>
    if note_ids_json = CStrArg.null then
      ⟨ERR_INVALID_PARAM, worker.sender, [], none⟩
    else
      match parse_account_id accountIdValid account_id_hex with
      | .error code => ⟨code, worker.sender, [], none⟩
      | .ok (account_id, _) =>
        match note_ids_json with
        | .null => ⟨ERR_INVALID_PARAM, worker.sender, [], none⟩
        | .invalidUtf8 => ⟨ERR_INVALID_PARAM, worker.sender, [], none⟩
        | .valid note_ids_str =>
          let parsed : Option (List NoteId) :=
            match parse_note_ids_json serdeParseStringArray noteIdFromHex
                note_ids_str with
            | .ok ids => if ids.isEmpty then none else some ids
            | .error _ => none
          match parsed with
          | none => ⟨ERR_NOTE_OP, worker.sender, [], none⟩
          | some note_ids =>
            match try_send_request worker.sender
                (Request.ConsumeNotesAsync account_id note_ids user_data) with
            | .error code => ⟨code, worker.sender, [], none⟩
            | .ok ch =>
              ⟨0, some ch,
                [Request.ConsumeNotesAsync account_id note_ids user_data], none⟩

/-- The RPC endpoint chosen for the worker.  `custom` never occurs in the
current code (custom endpoints are a TODO in lib.rs) but is part of the type
so the choice is observable. -/
inductive Endpoint
  | testnet
  | custom (s : String)
  deriving DecidableEq, Repr

/-- Outcome of `wc_miden_create`: status code, the endpoint handed to
`start_worker` (`none` when validation failed before the worker was
started), and whether a handle was produced. -/
structure CreateOutcome where
  code : Int
  endpointUsed : Option Endpoint
  handleCreated : Bool
  deriving DecidableEq, Repr

/-- `wc_miden_create` from lib.rs.  `startWorkerOk` models whether
`start_worker` (external filesystem / client initialization) succeeds for a
given endpoint. -/
def wc_miden_create (keystore_path store_path rpc_endpoint : CStrArg)
    (handle_out_null : Bool) (startWorkerOk : Endpoint → Bool) : CreateOutcome :=
  if keystore_path = CStrArg.null || store_path = CStrArg.null || handle_out_null then
    ⟨ERR_INVALID_PARAM, none, false⟩
  else if keystore_path = CStrArg.invalidUtf8 then ⟨-1, none, false⟩
  else if store_path = CStrArg.invalidUtf8 then ⟨-1, none, false⟩
  else
    let endpoint : Endpoint :=
      match rpc_endpoint with
      | .null => Endpoint.testnet
      | .valid s =>
        if s = "" || s = "testnet" then Endpoint.testnet
        else Endpoint.testnet
      | .invalidUtf8 => Endpoint.testnet
    if startWorkerOk endpoint then ⟨0, some endpoint, true⟩
    else ⟨-2, some endpoint, false⟩

/-- The primitive steps `wc_miden_destroy` performs, in order. -/
inductive DestroyStep
  | nulledSlot
  | sentShutdown
  | shutdownSendFailed
  | droppedSender
  | joinedWorker
  deriving DecidableEq, Repr

/-- `wc_miden_destroy` from lib.rs.  The argument models `handle_ptr`:
`none` = null pointer, `some slot` = pointer to the handle slot, where the
slot itself is a `MidenHandle` (null or a live worker handle).  Returns the
slot contents after the call and the ordered trace of steps taken. -/
def wc_miden_destroy (handle_ptr : Option MidenHandle) :
    Option MidenHandle × List DestroyStep :=
  match handle_ptr with
  | none => (none, [])
  | some none => (some none, [])
  | some (some worker_handle) =>
    let senderSteps : List DestroyStep :=
      match worker_handle.sender with
      | some ch =>
        (match ch.try_send Request.Shutdown with
          | .ok _ => [DestroyStep.sentShutdown]
          | .error _ => [DestroyStep.shutdownSendFailed])
          ++ [DestroyStep.droppedSender]
      | none => []
    let joinSteps : List DestroyStep :=
      if worker_handle.worker_thread then [DestroyStep.joinedWorker] else []
    (some none, DestroyStep.nulledSlot :: (senderSteps ++ joinSteps))

/-- An allocator action observable through `wc_bytes_free`. -/
inductive FreeAction
  | deallocated (addr : Nat) (len : Nat)
  deriving DecidableEq, Repr

/-- `wc_bytes_free` from src/memory.rs (re-exported with identical body in
lib.rs): a null pointer returns immediately; otherwise the `(ptr, len)` pair
is reconstructed into a `Vec` and dropped, i.e. deallocated. -/
def wc_bytes_free (ptr : Option Nat) (len : Nat) : List FreeAction :=
  match ptr with
  | none => []
  | some addr => [FreeAction.deallocated addr len]

/-! ## Helper lemmas about the worker loop -/

lemma isShutdown_eq_false {r : Request} (h : r ≠ Request.Shutdown) :
    r.isShutdown = false := by
  cases r <;> simp_all [Request.isShutdown]

lemma exec_request_isSome {C : Type} (cm : ClientModel C) (ctx : C) (r : Request)
    (h : r ≠ Request.Shutdown) : (exec_request cm ctx r).isSome := by
  cases r <;> simp_all [exec_request]

lemma preShutdown_cons_shutdown (rest : List Request) :
    preShutdown (Request.Shutdown :: rest) = [] := by
  simp [preShutdown, Request.isShutdown]

lemma preShutdown_cons (r : Request) (rest : List Request)
    (h : r ≠ Request.Shutdown) :
    preShutdown (r :: rest) = r :: preShutdown rest := by
  simp [preShutdown, isShutdown_eq_false h]

lemma preShutdown_eq_self {msgs : List Request}
    (h : Request.Shutdown ∉ msgs) : preShutdown msgs = msgs := by
  induction msgs with
  | nil => rfl
  | cons r rest ih =>
    have hr : r ≠ Request.Shutdown := fun he => h (he ▸ List.mem_cons_self r rest)
    rw [preShutdown_cons r rest hr, ih (fun hm => h (List.mem_cons_of_mem r hm))]

lemma worker_event_loop_cons_shutdown {C : Type} (cm : ClientModel C) (ctx : C)
    (rest : List Request) :
    worker_event_loop cm ctx (Request.Shutdown :: rest) = (ctx, []) := by
  simp [worker_event_loop, exec_request]

lemma worker_event_loop_cons {C : Type} (cm : ClientModel C) (ctx : C)
    (r : Request) (rest : List Request) (p : C × Completion)
    (h : exec_request cm ctx r = some p) :
    worker_event_loop cm ctx (r :: rest) =
      ((worker_event_loop cm p.1 rest).1,
        ⟨r, p.2⟩ :: (worker_event_loop cm p.1 rest).2) := by
  simp [worker_event_loop, h]

lemma worker_loop_map_req {C : Type} (cm : ClientModel C) :
    ∀ (msgs : List Request) (ctx : C),
      ((worker_event_loop cm ctx msgs).2).map Event.req = preShutdown msgs
  | [], _ => by simp [worker_event_loop, preShutdown]
  | r :: rest, ctx => by
    by_cases h : r = Request.Shutdown
    · subst h
      simp [worker_event_loop_cons_shutdown, preShutdown_cons_shutdown]
    · obtain ⟨p, hp⟩ := Option.isSome_iff_exists.mp (exec_request_isSome cm ctx r h)
      rw [worker_event_loop_cons cm ctx r rest p hp, preShutdown_cons r rest h]
      simp [worker_loop_map_req cm rest p.1]

lemma worker_loop_get? {C : Type} (cm : ClientModel C) :
    ∀ (msgs : List Request) (ctx : C) (i : Nat),
      ((worker_event_loop cm ctx msgs).2).get? i =
        ((preShutdown msgs).get? i).bind fun r =>
          (exec_request cm (ctxAfter cm ctx ((preShutdown msgs).take i)) r).map
            fun p => ⟨r, p.2⟩
  | [], _, i => by simp [worker_event_loop, preShutdown]
  | r :: rest, ctx, i => by
    by_cases h : r = Request.Shutdown
    · subst h
      simp [worker_event_loop_cons_shutdown, preShutdown_cons_shutdown]
    · obtain ⟨p, hp⟩ := Option.isSome_iff_exists.mp (exec_request_isSome cm ctx r h)
      rw [worker_event_loop_cons cm ctx r rest p hp, preShutdown_cons r rest h]
      cases i with
      | zero => simp [ctxAfter, hp]
      | succ n =>
        have hctx : ctxAfter cm ctx ((r :: preShutdown rest).take (n + 1)) =
            ctxAfter cm p.1 ((preShutdown rest).take n) := by
          simp [ctxAfter, hp]
        simp only [List.get?_cons_succ, hctx]
        exact worker_loop_get? cm rest p.1 n

/-! ## Claim theorems -/

/-- C1: the worker event loop processes delivered requests strictly
sequentially and in first-enqueued-first-processed order.  Conjunct 1:
the event trace covers exactly the requests before the first `Shutdown`, in
delivery order (so the loop also terminates when the channel closes, i.e. at
the end of the delivered sequence, having processed everything).  Conjunct 2:
the `i`-th event is the completion of the `i`-th request, executed against
the client state left by the first `i` requests — each request runs to
completion against the sequentially-threaded state before the next is
received, with no reordering and no concurrent execution.  Conjunct 3: on
receiving `Shutdown` the loop terminates immediately, executing nothing
further. -/
theorem C1_worker_loop_sequential_fifo {C : Type} (cm : ClientModel C) (ctx : C)
    (msgs : List Request) :
    (((worker_event_loop cm ctx msgs).2).map Event.req = preShutdown msgs)
    ∧ (∀ i : Nat,
        ((worker_event_loop cm ctx msgs).2).get? i =
          ((preShutdown msgs).get? i).bind fun r =>
            (exec_request cm (ctxAfter cm ctx ((preShutdown msgs).take i)) r).map
              fun p => ⟨r, p.2⟩)
    ∧ (∀ rest : List Request,
        worker_event_loop cm ctx (Request.Shutdown :: rest) = (ctx, [])) :=
  ⟨worker_loop_map_req cm msgs ctx,
   fun i => worker_loop_get? cm msgs ctx i,
   fun rest => worker_event_loop_cons_shutdown cm ctx rest⟩

/-- C2: `wc_miden_destroy` first nulls the handle slot and only afterwards
takes/drops the sender and joins the worker (the step trace starts with
`nulledSlot`, with `droppedSender` and `joinedWorker` strictly later); a
second destroy call on the already-nulled slot, or a call with a null
`handle_ptr`, is a no-op; and after destroy every operation entry point
called with the nulled handle returns `ERR_INVALID_HANDLE` (-2). -/
theorem C2_destroy_null_first_idempotent_invalidates :
    (∀ wh : MidenWorkerHandle,
        (wc_miden_destroy (some (some wh))).1 = some none
      ∧ (wc_miden_destroy (some (some wh))).2.head? = some DestroyStep.nulledSlot
      ∧ wc_miden_destroy ((wc_miden_destroy (some (some wh))).1) = (some none, []))
    ∧ (∀ ch : Channel,
        DestroyStep.droppedSender ∈
          (wc_miden_destroy (some (some ⟨some ch, true⟩))).2
      ∧ DestroyStep.joinedWorker ∈
          (wc_miden_destroy (some (some ⟨some ch, true⟩))).2)
    ∧ wc_miden_destroy (some none) = (some none, [])
    ∧ wc_miden_destroy none = (none, [])
    ∧ (∀ b e, (wc_miden_sync none b e).code = ERR_INVALID_HANDLE)
    ∧ (∀ sp sl b cap rng e,
        (wc_miden_create_wallet none sp sl b cap rng e).code = ERR_INVALID_HANDLE)
    ∧ (∀ b cap e, (wc_miden_get_accounts none b cap e).code = ERR_INVALID_HANDLE)
    ∧ (∀ v a b cap e,
        (wc_miden_get_balance v none a b cap e).code = ERR_INVALID_HANDLE)
    ∧ (∀ e, (wc_miden_test_connection none e).code = ERR_INVALID_HANDLE)
    ∧ (∀ v a b cap e,
        (wc_miden_get_input_notes v none a b cap e).code = ERR_INVALID_HANDLE)
    ∧ (∀ v sp nf a nj b cap e,
        (wc_miden_consume_notes v sp nf none a nj b cap e).code = ERR_INVALID_HANDLE)
    ∧ (∀ ud, (wc_miden_sync_async none ud).code = ERR_INVALID_HANDLE)
    ∧ (∀ sp sl ud rng,
        (wc_miden_create_wallet_async none sp sl ud rng).code = ERR_INVALID_HANDLE)
    ∧ (∀ ud, (wc_miden_get_accounts_async none ud).code = ERR_INVALID_HANDLE)
    ∧ (∀ v a ud, (wc_miden_get_balance_async v none a ud).code = ERR_INVALID_HANDLE)
    ∧ (∀ ud, (wc_miden_test_connection_async none ud).code = ERR_INVALID_HANDLE)
    ∧ (∀ v a ud,
        (wc_miden_get_input_notes_async v none a ud).code = ERR_INVALID_HANDLE)
    ∧ (∀ v sp nf a nj ud,
        (wc_miden_consume_notes_async v sp nf none a nj ud).code = ERR_INVALID_HANDLE) := by
  refine ⟨fun wh => ⟨rfl, rfl, rfl⟩, fun ch => ?_, rfl, rfl,
    fun b e => rfl, fun sp sl b cap rng e => rfl, fun b cap e => rfl,
    fun v a b cap e => rfl, fun e => rfl, fun v a b cap e => rfl,
    fun v sp nf a nj b cap e => rfl, fun ud => rfl, fun sp sl ud rng => rfl,
    fun ud => rfl, fun v a ud => rfl, fun ud => rfl, fun v a ud => rfl,
    fun v sp nf a nj ud => rfl⟩
  rcases h : ch.try_send Request.Shutdown with ch2 | err <;>
    simp [wc_miden_destroy, h]

/-- C3: enqueueing is a single non-blocking `try_send` that fails fast:
with the sender already taken the result is `ERR_INVALID_HANDLE`; on a
channel whose receiver has closed it is `ERR_INVALID_HANDLE`; on a full open
channel it is `ERR_QUEUE_FULL`; and on an open channel with room the request
is appended to the queue and the call returns at once — the non-blocking
entry point returns 0 with the request still sitting in the queue (the
caller does not wait for the worker to dequeue it), and the blocking and
non-blocking entry points surface the same two failure codes. -/
theorem C3_enqueue_fail_fast (req : Request) (chc chf cho : Channel)
    (hc : chc.closed = true)
    (hfOpen : chf.closed = false)
    (hfFull : WORKER_QUEUE_CAPACITY ≤ chf.queue.length)
    (hoOpen : cho.closed = false)
    (hoRoom : cho.queue.length < WORKER_QUEUE_CAPACITY) :
    try_send_request none req = .error ERR_INVALID_HANDLE
    ∧ try_send_request (some chc) req = .error ERR_INVALID_HANDLE
    ∧ try_send_request (some chf) req = .error ERR_QUEUE_FULL
    ∧ try_send_request (some cho) req = .ok ⟨cho.queue ++ [req], false⟩
    ∧ (∀ ud, wc_miden_sync_async (some ⟨some cho, true⟩) ud =
        ⟨0, some ⟨cho.queue ++ [Request.SyncAsync ud], false⟩,
          [Request.SyncAsync ud], none⟩)
    ∧ (∀ ud, (wc_miden_sync_async (some ⟨some chf, true⟩) ud).code = ERR_QUEUE_FULL)
    ∧ (∀ ud, (wc_miden_sync_async (some ⟨some chc, true⟩) ud).code = ERR_INVALID_HANDLE)
    ∧ (∀ b e, (wc_miden_sync (some ⟨some chf, true⟩) b e).code = ERR_QUEUE_FULL)
    ∧ (∀ b e, (wc_miden_sync (some ⟨some chc, true⟩) b e).code = ERR_INVALID_HANDLE) := by
  have hfNe : ¬ WORKER_QUEUE_CAPACITY ≤ cho.queue.length := Nat.not_le.mpr hoRoom
  refine ⟨rfl, ?_, ?_, ?_, ?_, ?_, ?_, ?_, ?_⟩
  · simp [try_send_request, Channel.try_send, hc]
  · simp [try_send_request, Channel.try_send, hfOpen, hfFull]
  · simp [try_send_request, Channel.try_send, hoOpen, hfNe]
  · intro ud
    simp [wc_miden_sync_async, get_handle, try_send_request, Channel.try_send,
      hoOpen, hfNe]
  · intro ud
    simp [wc_miden_sync_async, get_handle, try_send_request, Channel.try_send,
      hfOpen, hfFull]
  · intro ud
    simp [wc_miden_sync_async, get_handle, try_send_request, Channel.try_send, hc]
  · intro b e
    simp [wc_miden_sync, get_handle, try_send_request, Channel.try_send,
      hfOpen, hfFull]
  · intro b e
    simp [wc_miden_sync, get_handle, try_send_request, Channel.try_send, hc]

/-- Witness for C3 at concrete channels: a closed channel, a full open
channel (256 pending requests), and an empty open channel. -/
theorem C3_enqueue_fail_fast_witness :
    ((⟨[], true⟩ : Channel).closed = true
      ∧ (⟨List.replicate 256 Request.SyncSync, false⟩ : Channel).closed = false
      ∧ WORKER_QUEUE_CAPACITY ≤
          (List.replicate 256 Request.SyncSync).length
      ∧ (⟨[], false⟩ : Channel).closed = false
      ∧ ([] : List Request).length < WORKER_QUEUE_CAPACITY)
    ∧ try_send_request (some ⟨List.replicate 256 Request.SyncSync, false⟩)
        Request.SyncSync = .error ERR_QUEUE_FULL
    ∧ try_send_request (some ⟨[], false⟩) Request.SyncSync =
        .ok ⟨[Request.SyncSync], false⟩ := by
  have h := C3_enqueue_fail_fast Request.SyncSync ⟨[], true⟩
    ⟨List.replicate 256 Request.SyncSync, false⟩ ⟨[], false⟩
    rfl rfl (by norm_num [WORKER_QUEUE_CAPACITY, List.length_replicate]) rfl
    (by norm_num [WORKER_QUEUE_CAPACITY])
  exact ⟨⟨rfl, rfl, by norm_num [WORKER_QUEUE_CAPACITY, List.length_replicate], rfl,
    by norm_num [WORKER_QUEUE_CAPACITY]⟩, h.2.2.1, by simpa using h.2.2.2.1⟩

/-- C4: every blocking entry point, after a successful enqueue, waits on its
one-shot response channel with the fixed `SYNC_TIMEOUT` (30 seconds; the
entry points consult the receive environment only at `SYNC_TIMEOUT`, as the
`wc_miden_sync` invariance conjunct shows) and returns `ERR_TIMEOUT` (-99)
when the wait times out; the request stays in the worker queue (the returned
queue state still ends with it), and a worker loop draining that queue still
executes it to completion. -/
theorem C4_blocking_timeout (cho : Channel)
    (hoOpen : cho.closed = false)
    (hoRoom : cho.queue.length < WORKER_QUEUE_CAPACITY)
    (recvN : Nat → RecvOutcome Nat) (recvS : Nat → RecvOutcome String)
    (recvU : Nat → RecvOutcome Unit)
    (htN : recvN SYNC_TIMEOUT = .timedOut)
    (htS : recvS SYNC_TIMEOUT = .timedOut)
    (htU : recvU SYNC_TIMEOUT = .timedOut)
    (v : String → Bool) (s : String) (hv : v s = true)
    (sp : String → Option (List String)) (nf : String → Option NoteId)
    (njs : String) (ids : List NoteId)
    (hparse : parse_note_ids_json sp nf njs = .ok ids)
    (hne : ids.isEmpty = false)
    (b : Bool) (cap : Nat) (sl : Nat) (rng : List Nat) :
    SYNC_TIMEOUT = 30
    ∧ wc_miden_sync (some ⟨some cho, true⟩) b recvN =
        ⟨ERR_TIMEOUT, some ⟨cho.queue ++ [Request.SyncSync], false⟩,
          [Request.SyncSync], none⟩
    ∧ wc_miden_create_wallet (some ⟨some cho, true⟩) none sl false (some cap)
        rng recvS =
        ⟨ERR_TIMEOUT, some ⟨cho.queue ++ [Request.CreateWalletSync rng], false⟩,
          [Request.CreateWalletSync rng], none⟩
    ∧ wc_miden_get_accounts (some ⟨some cho, true⟩) false (some cap) recvS =
        ⟨ERR_TIMEOUT, some ⟨cho.queue ++ [Request.GetAccountsSync], false⟩,
          [Request.GetAccountsSync], none⟩
    ∧ wc_miden_get_balance v (some ⟨some cho, true⟩) (CStrArg.valid s)
        false (some cap) recvS =
        ⟨ERR_TIMEOUT, some ⟨cho.queue ++ [Request.GetBalanceSync s s], false⟩,
          [Request.GetBalanceSync s s], none⟩
    ∧ wc_miden_test_connection (some ⟨some cho, true⟩) recvU =
        ⟨ERR_TIMEOUT, some ⟨cho.queue ++ [Request.TestConnectionSync], false⟩,
          [Request.TestConnectionSync], none⟩
    ∧ wc_miden_get_input_notes v (some ⟨some cho, true⟩) CStrArg.null
        false (some cap) recvS =
        ⟨ERR_TIMEOUT, some ⟨cho.queue ++ [Request.GetInputNotesSync none], false⟩,
          [Request.GetInputNotesSync none], none⟩
    ∧ wc_miden_consume_notes v sp nf (some ⟨some cho, true⟩) (CStrArg.valid s)
        (CStrArg.valid njs) false (some cap) recvS =
        ⟨ERR_TIMEOUT, some ⟨cho.queue ++ [Request.ConsumeNotesSync s ids], false⟩,
          [Request.ConsumeNotesSync s ids], none⟩
    ∧ (∀ e1 e2 : Nat → RecvOutcome Nat, e1 SYNC_TIMEOUT = e2 SYNC_TIMEOUT →
        ∀ handle b2, wc_miden_sync handle b2 e1 = wc_miden_sync handle b2 e2)
    ∧ (Request.Shutdown ∉ cho.queue →
        ∀ (C : Type) (cm : ClientModel C) (ctx : C),
          ((worker_event_loop cm ctx (cho.queue ++ [Request.SyncSync])).2).map
              Event.req
            = cho.queue ++ [Request.SyncSync]) := by
  obtain ⟨q, c⟩ := cho
  simp only at hoOpen hoRoom
  subst hoOpen
  have hroom : ¬ WORKER_QUEUE_CAPACITY ≤ q.length := Nat.not_le.mpr hoRoom
  refine ⟨rfl, ?_, ?_, ?_, ?_, ?_, ?_, ?_, ?_, ?_⟩
  · simp [wc_miden_sync, get_handle, try_send_request, Channel.try_send,
      hroom, htN]
  · simp [wc_miden_create_wallet, get_handle, try_send_request,
      Channel.try_send, hroom, awaitStringResult, htS]
  · simp [wc_miden_get_accounts, get_handle, try_send_request,
      Channel.try_send, hroom, awaitStringResult, htS]
  · simp [wc_miden_get_balance, get_handle, parse_account_id, hv,
      try_send_request, Channel.try_send, hroom, awaitStringResult, htS]
  · simp [wc_miden_test_connection, get_handle, try_send_request,
      Channel.try_send, hroom, htU]
  · simp [wc_miden_get_input_notes, get_handle, parse_optional_account_id,
      try_send_request, Channel.try_send, hroom, awaitStringResult, htS]
  · simp [wc_miden_consume_notes, get_handle, parse_account_id, hv, hparse,
      hne, try_send_request, Channel.try_send, hroom, awaitStringResult, htS]
  · intro e1 e2 h12 handle b2
    simp only [wc_miden_sync, h12]
  · intro hns C cm ctx
    rw [worker_loop_map_req]
    exact preShutdown_eq_self (by simp [List.mem_append, hns])

/-- Witness for C4: on an empty open queue with every receive timing out,
the blocking sync and consume-notes calls return `ERR_TIMEOUT`. -/
theorem C4_blocking_timeout_witness :
    ((fun _ : Nat => (RecvOutcome.timedOut : RecvOutcome Nat)) SYNC_TIMEOUT
        = RecvOutcome.timedOut
      ∧ parse_note_ids_json (fun _ => some ["0x01"]) (fun x => some x)
          "[0x01]" = .ok ["0x01"]
      ∧ (["0x01"] : List NoteId).isEmpty = false)
    ∧ (wc_miden_sync (some ⟨some ⟨[], false⟩, true⟩) false
        (fun _ => RecvOutcome.timedOut)).code = ERR_TIMEOUT
    ∧ (wc_miden_consume_notes (fun _ => true) (fun _ => some ["0x01"])
        (fun x => some x) (some ⟨some ⟨[], false⟩, true⟩)
        (CStrArg.valid "0xa") (CStrArg.valid "[0x01]") false (some 64)
        (fun _ => RecvOutcome.timedOut)).code = ERR_TIMEOUT := by
  have h := C4_blocking_timeout ⟨[], false⟩ rfl
    (by norm_num [WORKER_QUEUE_CAPACITY])
    (fun _ => .timedOut) (fun _ => .timedOut) (fun _ => .timedOut)
    rfl rfl rfl (fun _ => true) "0xa" rfl
    (fun _ => some ["0x01"]) (fun x => some x) "[0x01]" ["0x01"]
    rfl rfl false 64 0 (List.replicate 32 0)
  exact ⟨⟨rfl, rfl, rfl⟩, by rw [h.2.1], by rw [h.2.2.2.2.2.2.2.1]⟩

/-- C5: every blocking entry point returning variable-length data into a
caller-supplied buffer writes exactly the full result and stores the actual
length (returning 0) when the result fits the capacity read from the in/out
length parameter, and returns `ERR_INVALID_PARAM` with nothing written when
the result exceeds the capacity — never a silent truncation. -/
theorem C5_caller_buffer_no_truncation (cho : Channel)
    (hoOpen : cho.closed = false)
    (hoRoom : cho.queue.length < WORKER_QUEUE_CAPACITY)
    (res : String) (capFit capSmall : Nat)
    (hfit : res.length ≤ capFit) (hsmall : capSmall < res.length)
    (recvS : Nat → RecvOutcome String)
    (hrecv : recvS SYNC_TIMEOUT = .received (.ok res))
    (v : String → Bool) (s : String) (hv : v s = true)
    (sp : String → Option (List String)) (nf : String → Option NoteId)
    (njs : String) (ids : List NoteId)
    (hparse : parse_note_ids_json sp nf njs = .ok ids)
    (hne : ids.isEmpty = false)
    (sl : Nat) (rng : List Nat) :
    wc_miden_create_wallet (some ⟨some cho, true⟩) none sl false (some capFit)
        rng recvS =
      ⟨0, some ⟨cho.queue ++ [Request.CreateWalletSync rng], false⟩,
        [Request.CreateWalletSync rng], some (res, res.length)⟩
    ∧ wc_miden_create_wallet (some ⟨some cho, true⟩) none sl false (some capSmall)
        rng recvS =
      ⟨ERR_INVALID_PARAM, some ⟨cho.queue ++ [Request.CreateWalletSync rng], false⟩,
        [Request.CreateWalletSync rng], none⟩
    ∧ wc_miden_get_accounts (some ⟨some cho, true⟩) false (some capFit) recvS =
      ⟨0, some ⟨cho.queue ++ [Request.GetAccountsSync], false⟩,
        [Request.GetAccountsSync], some (res, res.length)⟩
    ∧ wc_miden_get_accounts (some ⟨some cho, true⟩) false (some capSmall) recvS =
      ⟨ERR_INVALID_PARAM, some ⟨cho.queue ++ [Request.GetAccountsSync], false⟩,
        [Request.GetAccountsSync], none⟩
    ∧ wc_miden_get_balance v (some ⟨some cho, true⟩) (CStrArg.valid s)
        false (some capFit) recvS =
      ⟨0, some ⟨cho.queue ++ [Request.GetBalanceSync s s], false⟩,
        [Request.GetBalanceSync s s], some (res, res.length)⟩
    ∧ wc_miden_get_balance v (some ⟨some cho, true⟩) (CStrArg.valid s)
        false (some capSmall) recvS =
      ⟨ERR_INVALID_PARAM, some ⟨cho.queue ++ [Request.GetBalanceSync s s], false⟩,
        [Request.GetBalanceSync s s], none⟩
    ∧ wc_miden_get_input_notes v (some ⟨some cho, true⟩) CStrArg.null
        false (some capFit) recvS =
      ⟨0, some ⟨cho.queue ++ [Request.GetInputNotesSync none], false⟩,
        [Request.GetInputNotesSync none], some (res, res.length)⟩
    ∧ wc_miden_get_input_notes v (some ⟨some cho, true⟩) CStrArg.null
        false (some capSmall) recvS =
      ⟨ERR_INVALID_PARAM, some ⟨cho.queue ++ [Request.GetInputNotesSync none], false⟩,
        [Request.GetInputNotesSync none], none⟩
    ∧ wc_miden_consume_notes v sp nf (some ⟨some cho, true⟩) (CStrArg.valid s)
        (CStrArg.valid njs) false (some capFit) recvS =
      ⟨0, some ⟨cho.queue ++ [Request.ConsumeNotesSync s ids], false⟩,
        [Request.ConsumeNotesSync s ids], some (res, res.length)⟩
    ∧ wc_miden_consume_notes v sp nf (some ⟨some cho, true⟩) (CStrArg.valid s)
        (CStrArg.valid njs) false (some capSmall) recvS =
      ⟨ERR_INVALID_PARAM, some ⟨cho.queue ++ [Request.ConsumeNotesSync s ids], false⟩,
        [Request.ConsumeNotesSync s ids], none⟩ := by
  obtain ⟨q, c⟩ := cho
  simp only at hoOpen hoRoom
  subst hoOpen
  have hroom : ¬ WORKER_QUEUE_CAPACITY ≤ q.length := Nat.not_le.mpr hoRoom
  have hfitn : ¬ capFit < res.length := Nat.not_lt.mpr hfit
  refine ⟨?_, ?_, ?_, ?_, ?_, ?_, ?_, ?_, ?_, ?_⟩ <;>
    simp [wc_miden_create_wallet, wc_miden_get_accounts, wc_miden_get_balance,
      wc_miden_get_input_notes, wc_miden_consume_notes, get_handle,
      parse_account_id, parse_optional_account_id, hv, hparse, hne,
      try_send_request, Channel.try_send, hroom, awaitStringResult,
      writeStringResult, hrecv, hfitn, hsmall]

/-- Witness for C5: a 2-character result with capacity 16 is written in
full; with capacity 1 the call fails with `ERR_INVALID_PARAM` and writes
nothing. -/
theorem C5_caller_buffer_no_truncation_witness :
    (("[]" : String).length ≤ 16 ∧ 1 < ("[]" : String).length
      ∧ (fun _ : Nat => RecvOutcome.received (Except.ok "[]")) SYNC_TIMEOUT
          = RecvOutcome.received (Except.ok "[]"))
    ∧ (wc_miden_get_accounts (some ⟨some ⟨[], false⟩, true⟩) false (some 16)
        (fun _ => RecvOutcome.received (Except.ok "[]"))).written
        = some ("[]", 2)
    ∧ (wc_miden_get_accounts (some ⟨some ⟨[], false⟩, true⟩) false (some 1)
        (fun _ => RecvOutcome.received (Except.ok "[]"))).code
        = ERR_INVALID_PARAM := by
  have h := C5_caller_buffer_no_truncation ⟨[], false⟩ rfl
    (by norm_num [WORKER_QUEUE_CAPACITY]) "[]" 16 1 (by decide) (by decide)
    (fun _ => RecvOutcome.received (Except.ok "[]")) rfl
    (fun _ => true) "0xa" rfl
    (fun _ => some ["0x01"]) (fun x => some x) "[0x01]" ["0x01"]
    rfl rfl 0 (List.replicate 32 0)
  refine ⟨⟨by decide, by decide, rfl⟩, ?_, ?_⟩
  · rw [h.2.2.1]; decide
  · rw [h.2.2.2.1]

/-- C6: the note-id JSON input of `wc_miden_consume_notes` and
`wc_miden_consume_notes_async` is parsed as a flat array of hex strings;
malformed JSON (`serde` failure), an element that is not a valid note-id hex
string, and an empty array are all rejected with `ERR_NOTE_OP` (-4) at the
entry point, with no request enqueued and the queue untouched. -/
theorem C6_note_ids_rejected_before_enqueue
    (snd : Option Channel) (t : Bool)
    (v : String → Bool) (s : String) (hv : v s = true)
    (sp : String → Option (List String)) (nf : String → Option NoteId)
    (njsBad njsEmpty : String)
    (hbad : parse_note_ids_json sp nf njsBad = .error ERR_NOTE_OP)
    (hempty : parse_note_ids_json sp nf njsEmpty = .ok [])
    (cap : Nat) (recvS : Nat → RecvOutcome String) (ud : Nat) :
    (∀ j, sp j = none →
        parse_note_ids_json sp nf j = .error ERR_NOTE_OP)
    ∧ (∀ j l, sp j = some l → l.mapM nf = none →
        parse_note_ids_json sp nf j = .error ERR_NOTE_OP)
    ∧ wc_miden_consume_notes v sp nf (some ⟨snd, t⟩) (CStrArg.valid s)
        (CStrArg.valid njsBad) false (some cap) recvS =
      ⟨ERR_NOTE_OP, snd, [], none⟩
    ∧ wc_miden_consume_notes v sp nf (some ⟨snd, t⟩) (CStrArg.valid s)
        (CStrArg.valid njsEmpty) false (some cap) recvS =
      ⟨ERR_NOTE_OP, snd, [], none⟩
    ∧ wc_miden_consume_notes_async v sp nf (some ⟨snd, t⟩) (CStrArg.valid s)
        (CStrArg.valid njsBad) ud =
      ⟨ERR_NOTE_OP, snd, [], none⟩
    ∧ wc_miden_consume_notes_async v sp nf (some ⟨snd, t⟩) (CStrArg.valid s)
        (CStrArg.valid njsEmpty) ud =
      ⟨ERR_NOTE_OP, snd, [], none⟩ := by
  refine ⟨fun j hj => by simp [parse_note_ids_json, hj],
    fun j l hj hl => by simp only [parse_note_ids_json, hj]; rw [hl],
    ?_, ?_, ?_, ?_⟩ <;>
    simp [wc_miden_consume_notes, wc_miden_consume_notes_async, get_handle,
      parse_account_id, hv, hbad, hempty]

/-- Witness for C6: with a serde oracle accepting only `"[]"` (as the empty
array) and a hex oracle rejecting everything, both a malformed JSON string
and the empty array `"[]"` are rejected with `ERR_NOTE_OP` and nothing is
enqueued. -/
theorem C6_note_ids_rejected_before_enqueue_witness :
    ((fun _ : String => true) "0xa" = true
      ∧ parse_note_ids_json
          (fun j => if j = "[]" then some [] else none) (fun _ => none)
          "not json" = .error ERR_NOTE_OP
      ∧ parse_note_ids_json
          (fun j => if j = "[]" then some [] else none) (fun _ => none)
          "[]" = .ok [])
    ∧ wc_miden_consume_notes (fun _ => true)
        (fun j => if j = "[]" then some [] else none) (fun _ => none)
        (some ⟨some ⟨[], false⟩, true⟩) (CStrArg.valid "0xa")
        (CStrArg.valid "[]") false (some 64)
        (fun _ => RecvOutcome.timedOut) =
      ⟨ERR_NOTE_OP, some ⟨[], false⟩, [], none⟩
    ∧ wc_miden_consume_notes_async (fun _ => true)
        (fun j => if j = "[]" then some [] else none) (fun _ => none)
        (some ⟨some ⟨[], false⟩, true⟩) (CStrArg.valid "0xa")
        (CStrArg.valid "not json") 7 =
      ⟨ERR_NOTE_OP, some ⟨[], false⟩, [], none⟩ := by
  have h := C6_note_ids_rejected_before_enqueue (some ⟨[], false⟩) true
    (fun _ => true) "0xa" rfl
    (fun j => if j = "[]" then some [] else none) (fun _ => none)
    "not json" "[]" rfl rfl 64
    (fun _ => RecvOutcome.timedOut) 7
  exact ⟨⟨rfl, rfl, rfl⟩, h.2.2.2.1, h.2.2.2.2.1⟩

/-- C7: an account-id argument that is a valid C string but not a
well-formed account-id hex string makes `wc_miden_get_balance` (and the
other entry points taking a required account id: `wc_miden_consume_notes`
and the async variants) return `ERR_ACCOUNT_OP` (-3) synchronously, with no
request enqueued and the queue untouched; a null account-id pointer returns
`ERR_INVALID_PARAM` (-1) instead. -/
theorem C7_account_parse_rejected_at_entry
    (snd : Option Channel) (t : Bool)
    (v : String → Bool) (s : String) (hv : v s = false)
    (sp : String → Option (List String)) (nf : String → Option NoteId)
    (njs : String) (cap : Nat) (recvS : Nat → RecvOutcome String) (ud : Nat) :
    parse_account_id v (CStrArg.valid s) = .error ERR_ACCOUNT_OP
    ∧ parse_account_id v CStrArg.null = .error ERR_INVALID_PARAM
    ∧ wc_miden_get_balance v (some ⟨snd, t⟩) (CStrArg.valid s)
        false (some cap) recvS = ⟨ERR_ACCOUNT_OP, snd, [], none⟩
    ∧ wc_miden_get_balance v (some ⟨snd, t⟩) CStrArg.null
        false (some cap) recvS = ⟨ERR_INVALID_PARAM, snd, [], none⟩
    ∧ wc_miden_get_balance_async v (some ⟨snd, t⟩) (CStrArg.valid s) ud =
        ⟨ERR_ACCOUNT_OP, snd, [], none⟩
    ∧ wc_miden_get_balance_async v (some ⟨snd, t⟩) CStrArg.null ud =
        ⟨ERR_INVALID_PARAM, snd, [], none⟩
    ∧ wc_miden_consume_notes v sp nf (some ⟨snd, t⟩) (CStrArg.valid s)
        (CStrArg.valid njs) false (some cap) recvS =
        ⟨ERR_ACCOUNT_OP, snd, [], none⟩
    ∧ wc_miden_consume_notes_async v sp nf (some ⟨snd, t⟩) (CStrArg.valid s)
        (CStrArg.valid njs) ud = ⟨ERR_ACCOUNT_OP, snd, [], none⟩ := by
  refine ⟨by simp [parse_account_id, hv], rfl, ?_, ?_, ?_, ?_, ?_, ?_⟩ <;>
    simp [wc_miden_get_balance, wc_miden_get_balance_async,
      wc_miden_consume_notes, wc_miden_consume_notes_async, get_handle,
      parse_account_id, hv]

/-- Witness for C7: with an account-id oracle rejecting everything, the
string "not-hex" yields `ERR_ACCOUNT_OP` and the null pointer yields
`ERR_INVALID_PARAM`, with nothing enqueued. -/
theorem C7_account_parse_rejected_at_entry_witness :
    ((fun _ : String => false) "not-hex" = false
      ∧ parse_account_id (fun _ => false) (CStrArg.valid "not-hex")
          = .error ERR_ACCOUNT_OP)
    ∧ wc_miden_get_balance (fun _ => false) (some ⟨some ⟨[], false⟩, true⟩)
        (CStrArg.valid "not-hex") false (some 64)
        (fun _ => RecvOutcome.timedOut) =
      ⟨ERR_ACCOUNT_OP, some ⟨[], false⟩, [], none⟩
    ∧ wc_miden_get_balance (fun _ => false) (some ⟨some ⟨[], false⟩, true⟩)
        CStrArg.null false (some 64) (fun _ => RecvOutcome.timedOut) =
      ⟨ERR_INVALID_PARAM, some ⟨[], false⟩, [], none⟩ := by
  have h := C7_account_parse_rejected_at_entry (some ⟨[], false⟩) true
    (fun _ => false) "not-hex" rfl
    (fun _ => some []) (fun _ => none) "[]" 64
    (fun _ => RecvOutcome.timedOut) 7
  exact ⟨⟨rfl, h.1⟩, h.2.2.1, h.2.2.2.1⟩

/-- C8: the `rpc_endpoint` argument of `wc_miden_create` never influences
the outcome: every argument (null, empty, the alias "testnet", an
unrecognized custom string, or a non-UTF-8 byte sequence) yields the same
result as passing null, and whenever the worker is started it is started
with the default testnet endpoint. -/
theorem C8_endpoint_always_testnet :
    (∀ (ks ss ep : CStrArg) (ho : Bool) (sw : Endpoint → Bool),
        wc_miden_create ks ss ep ho sw = wc_miden_create ks ss CStrArg.null ho sw)
    ∧ (∀ (k s2 : String) (ep : CStrArg) (sw : Endpoint → Bool),
        (wc_miden_create (CStrArg.valid k) (CStrArg.valid s2) ep false
            sw).endpointUsed = some Endpoint.testnet) := by
  constructor
  · intro ks ss ep ho sw
    cases ep <;> simp [wc_miden_create]
  · intro k s2 ep sw
    cases ep <;> cases h : sw Endpoint.testnet <;> simp [wc_miden_create, h]

/-- C9: `wc_bytes_free` with a null pointer is a no-op for every length
value — no deallocation is attempted — while a non-null pointer deallocates
exactly the given (pointer, length) pair. -/
theorem C9_bytes_free_null_noop :
    (∀ len : Nat, wc_bytes_free none len = [])
    ∧ (∀ (addr len : Nat),
        wc_bytes_free (some addr) len = [FreeAction.deallocated addr len]) :=
  ⟨fun _ => rfl, fun _ _ => rfl⟩

/-- C10: in both `wc_miden_create_wallet` and
`wc_miden_create_wallet_async`, a null seed pointer is accepted and replaced
by the freshly generated random 32-byte seed (the request is enqueued
carrying it), a non-null seed pointer with `seed_len ≠ 32` is rejected with
`ERR_INVALID_PARAM` before anything is enqueued, a non-null seed with
`seed_len = 32` is accepted, and `seed_len` is ignored whenever the seed
pointer is null. -/
theorem C10_create_wallet_seed_handling
    (snd : Option Channel) (t : Bool) (cho : Channel)
    (hoOpen : cho.closed = false)
    (hoRoom : cho.queue.length < WORKER_QUEUE_CAPACITY)
    (bytes : List Nat) (sl : Nat) (hsl : sl ≠ 32)
    (rng : List Nat) (cap : Nat)
    (recvS : Nat → RecvOutcome String) (ud : Nat) :
    wc_miden_create_wallet (some ⟨snd, t⟩) (some bytes) sl false (some cap)
        rng recvS = ⟨ERR_INVALID_PARAM, snd, [], none⟩
    ∧ wc_miden_create_wallet_async (some ⟨snd, t⟩) (some bytes) sl ud rng =
        ⟨ERR_INVALID_PARAM, snd, [], none⟩
    ∧ (∀ sl1, (wc_miden_create_wallet (some ⟨some cho, t⟩) none sl1 false
        (some cap) rng recvS).enqueued = [Request.CreateWalletSync rng])
    ∧ (∀ sl1, wc_miden_create_wallet_async (some ⟨some cho, t⟩) none sl1 ud rng =
        ⟨0, some ⟨cho.queue ++ [Request.CreateWalletAsync rng ud], false⟩,
          [Request.CreateWalletAsync rng ud], none⟩)
    ∧ (wc_miden_create_wallet (some ⟨some cho, t⟩) (some bytes) 32 false
        (some cap) rng recvS).enqueued = [Request.CreateWalletSync bytes]
    ∧ (∀ (handle : MidenHandle) (b : Bool) (cap2 : Option Nat) (sl1 sl2 : Nat),
        wc_miden_create_wallet handle none sl1 b cap2 rng recvS =
          wc_miden_create_wallet handle none sl2 b cap2 rng recvS)
    ∧ (∀ (handle : MidenHandle) (sl1 sl2 : Nat),
        wc_miden_create_wallet_async handle none sl1 ud rng =
          wc_miden_create_wallet_async handle none sl2 ud rng) := by
  obtain ⟨q, c⟩ := cho
  simp only at hoOpen hoRoom
  subst hoOpen
  have hroom : ¬ WORKER_QUEUE_CAPACITY ≤ q.length := Nat.not_le.mpr hoRoom
  refine ⟨?_, ?_, ?_, ?_, ?_, ?_, ?_⟩
  · simp [wc_miden_create_wallet, get_handle, hsl]
  · simp [wc_miden_create_wallet_async, get_handle, hsl]
  · intro sl1
    rcases hr : recvS SYNC_TIMEOUT with r | _ | _
    · rcases r with res | code <;>
        simp [wc_miden_create_wallet, get_handle, try_send_request,
          Channel.try_send, hroom, awaitStringResult, writeStringResult, hr] <;>
        split <;> simp
    · simp [wc_miden_create_wallet, get_handle, try_send_request,
        Channel.try_send, hroom, awaitStringResult, hr]
    · simp [wc_miden_create_wallet, get_handle, try_send_request,
        Channel.try_send, hroom, awaitStringResult, hr]
  · intro sl1
    simp [wc_miden_create_wallet_async, get_handle, try_send_request,
      Channel.try_send, hroom]
  · rcases hr : recvS SYNC_TIMEOUT with r | _ | _
    · rcases r with res | code <;>
        simp [wc_miden_create_wallet, get_handle, try_send_request,
          Channel.try_send, hroom, awaitStringResult, writeStringResult, hr] <;>
        split <;> simp
    · simp [wc_miden_create_wallet, get_handle, try_send_request,
        Channel.try_send, hroom, awaitStringResult, hr]
    · simp [wc_miden_create_wallet, get_handle, try_send_request,
        Channel.try_send, hroom, awaitStringResult, hr]
  · intro handle b cap2 sl1 sl2
    simp [wc_miden_create_wallet]
  · intro handle sl1 sl2
    simp [wc_miden_create_wallet_async]

/-- Witness for C10: `seed_len = 31` with a non-null seed is rejected; a
null seed pointer is accepted and the random seed is enqueued. -/
theorem C10_create_wallet_seed_handling_witness :
    ((31 : Nat) ≠ 32
      ∧ (⟨[], false⟩ : Channel).closed = false
      ∧ ([] : List Request).length < WORKER_QUEUE_CAPACITY)
    ∧ wc_miden_create_wallet (some ⟨some ⟨[], false⟩, true⟩)
        (some (List.replicate 32 7)) 31 false (some 64) (List.replicate 32 0)
        (fun _ => RecvOutcome.timedOut) =
      ⟨ERR_INVALID_PARAM, some ⟨[], false⟩, [], none⟩
    ∧ wc_miden_create_wallet_async (some ⟨some ⟨[], false⟩, true⟩) none 999 5
        (List.replicate 32 0) =
      ⟨0, some ⟨[Request.CreateWalletAsync (List.replicate 32 0) 5], false⟩,
        [Request.CreateWalletAsync (List.replicate 32 0) 5], none⟩ := by
  have h := C10_create_wallet_seed_handling (some ⟨[], false⟩) true ⟨[], false⟩
    rfl (by norm_num [WORKER_QUEUE_CAPACITY]) (List.replicate 32 7) 31
    (by decide) (List.replicate 32 0) 64 (fun _ => RecvOutcome.timedOut) 5
  refine ⟨⟨by decide, rfl, by norm_num [WORKER_QUEUE_CAPACITY]⟩, h.1, ?_⟩
  have h4 := h.2.2.2.1 999
  simpa using h4
